import Mathlib

/-!
Verification of the github-ai-reviewer webhook service.

The development shallowly embeds the two HTTP handler modules of the
repository, server.py (synchronous, Flask) and async_server.py
(asynchronous, Quart), as pure Lean functions:

* the cryptographic core (SHA-256, HMAC-SHA256, lowercase hex digest and
  UTF-8 encoding) is implemented executably over byte lists, mirroring
  Python's hashlib/hmac as used by `verify_signature`;
* external collaborators (the GitHub host and the Gemini HTTP endpoint)
  are supplied as an explicit environment of oracles, and each handler is
  a total function from that environment and the inbound request to a
  record of its observable behaviour (status code, response message,
  attempted host calls, review invocations, posted comments, per-file
  verdicts).

Machine integers are naturals reduced modulo 2^32 where the source
overflows; fallible collaborator calls return Except.  Every definition is
computable so that concrete runs can be settled by evaluation.
-/

namespace AIReviewer

/-- A byte string: list of naturals, each below 256 by construction. -/
abbrev Bytes := List Nat

/-- Reduce to a 32-bit word, as Python's hashlib arithmetic does implicitly. -/
def w32 (x : Nat) : Nat := x % 4294967296

/-- 32-bit modular addition. -/
def add32 (a b : Nat) : Nat := (a + b) % 4294967296

/-- 32-bit right rotation. -/
def rotr (n a : Nat) : Nat := w32 ((a >>> n) ||| (a <<< (32 - n)))

/-- 32-bit complement. -/
def not32 (a : Nat) : Nat := Nat.xor a 4294967295

/-- SHA-256 choice function (FIPS 180-4). -/
def chFn (x y z : Nat) : Nat := Nat.xor (Nat.land x y) (Nat.land (not32 x) z)

/-- SHA-256 majority function (FIPS 180-4). -/
def majFn (x y z : Nat) : Nat :=
  Nat.xor (Nat.land x y) (Nat.xor (Nat.land x z) (Nat.land y z))

/-- SHA-256 big sigma 0. -/
def bSig0 (x : Nat) : Nat := Nat.xor (rotr 2 x) (Nat.xor (rotr 13 x) (rotr 22 x))

/-- SHA-256 big sigma 1. -/
def bSig1 (x : Nat) : Nat := Nat.xor (rotr 6 x) (Nat.xor (rotr 11 x) (rotr 25 x))

/-- SHA-256 small sigma 0. -/
def sSig0 (x : Nat) : Nat := Nat.xor (rotr 7 x) (Nat.xor (rotr 18 x) (x >>> 3))

/-- SHA-256 small sigma 1. -/
def sSig1 (x : Nat) : Nat := Nat.xor (rotr 17 x) (Nat.xor (rotr 19 x) (x >>> 10))

/-- SHA-256 round constants K (FIPS 180-4, section 4.2.2), in decimal. -/
def sha256K : List Nat :=
  [1116352408, 1899447441, 3049323471, 3921009573, 961987163, 1508970993,
   2453635748, 2870763221, 3624381080, 310598401, 607225278, 1426881987,
   1925078388, 2162078206, 2614888103, 3248222580, 3835390401, 4022224774,
   264347078, 604807628, 770255983, 1249150122, 1555081692, 1996064986,
   2554220882, 2821834349, 2952996808, 3210313671, 3336571891, 3584528711,
   113926993, 338241895, 666307205, 773529912, 1294757372, 1396182291,
   1695183700, 1986661051, 2177026350, 2456956037, 2730485921, 2820302411,
   3259730800, 3345764771, 3516065817, 3600352804, 4094571909, 275423344,
   430227734, 506948616, 659060556, 883997877, 958139571, 1322822218,
   1537002063, 1747873779, 1955562222, 2024104815, 2227730452, 2361852424,
   2428436474, 2756734187, 3204031479, 3329325298]

/-- SHA-256 initial hash value H0 (FIPS 180-4, section 5.3.3), in decimal. -/
def sha256H0 : List Nat :=
  [1779033703, 3144134277, 1013904242, 2773480762,
   1359893119, 2600822924, 528734635, 1541459225]

/-- Big-endian byte serialization of a natural into a fixed number of bytes. -/
def beBytes (n numBytes : Nat) : Bytes :=
  (List.range numBytes).map (fun i => (n >>> (8 * (numBytes - 1 - i))) % 256)

/-- SHA-256 message padding: append 0x80, zero bytes to 56 mod 64, then the
bit length as an 8-byte big-endian integer. -/
def padMessage (msg : Bytes) : Bytes :=
  msg ++ [0x80] ++ List.replicate ((119 - msg.length % 64) % 64) 0
      ++ beBytes (8 * msg.length) 8

/-- Parse a 64-byte chunk into sixteen big-endian 32-bit words. -/
def bytesToWords (chunk : Bytes) : List Nat :=
  (List.range 16).map (fun i =>
    chunk.getD (4 * i) 0 * 16777216 + chunk.getD (4 * i + 1) 0 * 65536 +
    chunk.getD (4 * i + 2) 0 * 256 + chunk.getD (4 * i + 3) 0)

/-- Extend the sixteen message words to the 64-entry message schedule. -/
def extendWords (w0 : List Nat) : List Nat :=
  (List.range 48).foldl
    (fun w _ =>
      w ++ [add32 (add32 (sSig1 (w.getD (w.length - 2) 0)) (w.getD (w.length - 7) 0))
              (add32 (sSig0 (w.getD (w.length - 15) 0)) (w.getD (w.length - 16) 0))])
    w0

/-- One SHA-256 compression round on the eight-word working state. -/
def roundStep (k wt : Nat) (s : List Nat) : List Nat :=
  match s with
  | [a, b, c, d, e, f, g, h] =>
    let t1 := add32 h (add32 (bSig1 e) (add32 (chFn e f g) (add32 k wt)))
    let t2 := add32 (bSig0 a) (majFn a b c)
    [add32 t1 t2, a, b, c, add32 d t1, e, f, g]
  | s => s

/-- SHA-256 compression of one 64-byte chunk into the running hash. -/
def sha256Compress (h : List Nat) (chunk : Bytes) : List Nat :=
  let w := extendWords (bytesToWords chunk)
  let s := (List.range 64).foldl (fun s i => roundStep (sha256K.getD i 0) (w.getD i 0) s) h
  List.zipWith add32 h s

/-- SHA-256 digest of a byte string, as 32 bytes. -/
def sha256 (msg : Bytes) : Bytes :=
  let p := padMessage msg
  let hf := (List.range (p.length / 64)).foldl
    (fun h i => sha256Compress h ((p.drop (64 * i)).take 64)) sha256H0
  ((hf.map (fun x => beBytes x 4)).flatten)

/-- Lowercase hexadecimal digit characters, as Python's hexdigest emits. -/
def hexChars : List Char := "0123456789abcdef".data

/-- Lowercase hexadecimal rendering of a byte string, two digits per byte:
Python's hashlib hexdigest. -/
def hexdigest (bs : Bytes) : String :=
  String.mk (bs.flatMap (fun b => [hexChars.getD (b / 16) ' ', hexChars.getD (b % 16) ' ']))

/-- HMAC-SHA256 (RFC 2104) with a 64-byte block, as Python's hmac.new with
digestmod sha256. -/
def hmacSha256 (key msg : Bytes) : Bytes :=
  let k0 := if key.length > 64 then sha256 key else key
  let kp := k0 ++ List.replicate (64 - k0.length) 0
  sha256 ((kp.map (fun b => Nat.xor b 0x5c)) ++
          sha256 ((kp.map (fun b => Nat.xor b 0x36)) ++ msg))

/-- UTF-8 encoding of one character, as Python's str.encode. -/
def utf8EncodeChar (c : Char) : Bytes :=
  let n := c.toNat
  if n < 128 then [n]
  else if n < 2048 then [192 + n / 64, 128 + n % 64]
  else if n < 65536 then [224 + n / 4096, 128 + n / 64 % 64, 128 + n % 64]
  else [240 + n / 262144, 128 + n / 4096 % 64, 128 + n / 64 % 64, 128 + n % 64]

/-- UTF-8 encoding of a string, as Python's str.encode with encoding utf-8. -/
def strBytes (s : String) : Bytes := s.data.flatMap utf8EncodeChar

/-- Python truthiness of an optional string: None and the empty string are
falsy, every other string is truthy.  Used for the header check
(if not signature_header) and the API-key check (if not api_key). -/
def pyTruthy : Option String → Bool
  | none => false
  | some s => !(s == "")

/-- Python's str.endswith: the suffix test on the character sequence. -/
def endswith (s suffix : String) : Bool := suffix.data.isSuffixOf s.data

/-- Python's str.startswith: the prefix test on the character sequence. -/
def startswith (s pre : String) : Bool := pre.data.isPrefixOf s.data

namespace Server

/-- The signature the verifier recomputes in server.py lines 31-36:
the string sha256= followed by the lowercase hex HMAC-SHA256 of the body
under the UTF-8 bytes of the WEBHOOK_SECRET environment variable
(empty string when the variable is unset, per os.environ.get default). -/
def expected_signature (webhook_secret : Option String) (payload_body : Bytes) : String :=
  "sha256=" ++ hexdigest (hmacSha256 (strBytes (webhook_secret.getD "")) payload_body)

/-- server.py verify_signature (lines 26-38): a falsy header is rejected at
once; otherwise the recomputed expected signature is compared with the
header (hmac.compare_digest is equality, timing aside). -/
def verify_signature (webhook_secret : Option String) (payload_body : Bytes)
    (signature_header : Option String) : Bool :=
  if !pyTruthy signature_header then false
  else expected_signature webhook_secret payload_body == signature_header.getD ""

end Server

namespace AsyncServer

/-- async_server.py lines 33-38: identical recomputation of the expected
signature string. -/
def expected_signature (webhook_secret : Option String) (payload_body : Bytes) : String :=
  "sha256=" ++ hexdigest (hmacSha256 (strBytes (webhook_secret.getD "")) payload_body)

/-- async_server.py verify_signature (lines 28-40), textually the same
function as the synchronous one. -/
def verify_signature (webhook_secret : Option String) (payload_body : Bytes)
    (signature_header : Option String) : Bool :=
  if !pyTruthy signature_header then false
  else expected_signature webhook_secret payload_body == signature_header.getD ""

end AsyncServer

/-- Outcome of the one HTTP exchange review_with_gemini performs when an API
key is configured: a requests/aiohttp exception, a JSON body without a
candidates entry, or the first candidate's text. -/
inductive GeminiOutcome where
  | transportError (msg : String)
  | noCandidates
  | reply (text : String)
deriving DecidableEq

/-- The string review_with_gemini returns (server.py lines 65-114,
async_server.py lines 57-107; both classify identically): a falsy
GEMINI_API_KEY short-circuits to a fixed error string; a transport
exception or an empty candidate list become error strings; otherwise the
model's text is returned verbatim.  The function never raises. -/
def review_with_gemini (api_key : Option String) (outcome : GeminiOutcome) : String :=
  if !pyTruthy api_key then "Error: Gemini API key not configured"
  else
    match outcome with
    | .transportError e => "Error calling Gemini API: " ++ e
    | .noCandidates => "Error: No response from Gemini"
    | .reply t => t

/-- The external collaborators of one webhook invocation: process
configuration, the host-side setup chain (payload field extraction,
installation auth, get_repo, get_pull, get_files — collapsed into one
fallible step returning the changed filenames in the order the host
reports them), the per-file content fetch (get_contents plus UTF-8
decode), and the Gemini endpoint's behaviour per (content, filename). -/
structure HostEnv where
  webhook_secret : Option String
  gemini_api_key : Option String
  setup : Except String (List String)
  get_contents : String → Except String String
  gemini : String → String → GeminiOutcome

/-- The inbound POST /webhook request: raw body bytes, the
X-Hub-Signature-256 and X-GitHub-Event headers, and the action field of
the parsed JSON payload. -/
structure WebhookRequest where
  body : Bytes
  signature : Option String
  event_type : Option String
  action : Option String

/-- Observable behaviour of one handler run: HTTP status, the message or
error string of the JSON response, whether the handler reached the try
block that talks to the source host, the files whose contents it asked
the host for, the files for which the review client's HTTP call was
actually entered, the comments posted (in order), and the per-file
verdicts (one entry per eligible file, in host order; some holds the
issue section appended for that file, none means no section). -/
structure RunResult where
  status : Nat
  message : String
  reachedHost : Bool
  contentFetches : List String
  reviewInvocations : List String
  comments : List String
  verdicts : List (Option String)
deriving DecidableEq

/-- The response of an invalid-signature run: 401, error message, nothing
else happens. -/
def invalidSignatureResult : RunResult := ⟨401, "Invalid signature", false, [], [], [], []⟩

/-- The response of an ignored event type: 200, no processing. -/
def eventIgnoredResult : RunResult := ⟨200, "Event ignored", false, [], [], [], []⟩

/-- The response of an ignored action: 200, no processing. -/
def actionIgnoredResult : RunResult := ⟨200, "Action ignored", false, [], [], [], []⟩

/-- The issues comment body (identical f-string template in server.py lines
182-188 and async_server.py lines 201-207): header, the issue sections
joined by newlines, and a footer. -/
def issuesComment (issues : List String) : String :=
  "## 🤖 AI Code Review\n\n" ++ String.intercalate "\n" issues ++
  "\n\n---\n*Automated review powered by Gemini AI - Please address issues before human review*\n"

/-- True when this filename's content fetch succeeds, i.e. repo.get_contents
plus decode raises no exception. -/
def fetchOk (env : HostEnv) (filename : String) : Bool :=
  match env.get_contents filename with
  | .ok _ => true
  | .error _ => false

namespace Server

/-- server.py lines 116-119: the synchronous allow-list, ten extensions,
without .jsx and .tsx. -/
def reviewable_extensions : List String :=
  [".py", ".js", ".ts", ".java", ".cpp", ".c", ".go", ".rs", ".php", ".rb"]

/-- server.py should_review_file: any-of-suffixes test over the allow-list. -/
def should_review_file (filename : String) : Bool :=
  reviewable_extensions.any (fun ext => endswith filename ext)

/-- The str() of the AttributeError raised at server.py line 173:
review_with_gemini is declared async def (line 65) but the synchronous
handler calls it without await (line 171), so review is a coroutine
object and review.startswith does not exist. -/
def coroutineAttrError : String :=
  "\x27coroutine\x27 object has no attribute \x27startswith\x27"

/-- The per-file body of the loop at server.py lines 161-178, for one
eligible file: a content-fetch (or decode) exception is caught and
appended as an error section; when the fetch succeeds, the un-awaited
coroutine call makes review.startswith raise AttributeError, which the
same except clause turns into an error section.  The Gemini HTTP call is
never entered (the coroutine body never runs). -/
def processFile (env : HostEnv) (filename : String) : Option String :=
  match env.get_contents filename with
  | .error e => some ("## ❌ " ++ filename ++ "\nError reviewing file: " ++ e)
  | .ok _ => some ("## ❌ " ++ filename ++ "\nError reviewing file: " ++ coroutineAttrError)

/-- The positive comment posted at server.py lines 193-199 when the issues
list is empty. -/
def positiveComment : String :=
  "## 🤖 AI Code Review\n\n✅ **Code looks good!** No major issues found.\n\n---\n*Automated review powered by Gemini AI*\n"

/-- server.py webhook after the signature gate (lines 130-206): event and
action filters, then the try block — setup, the per-file loop over files
passing should_review_file in host order, and exactly one comment: the
issues comment when any section was appended, the positive comment
otherwise.  The synchronous handler has no empty-selection early return:
with no eligible files the loop body never runs and the positive comment
is posted.  Note the handler never enters a Gemini HTTP call (see
processFile), so reviewInvocations is empty. -/
def webhook_verified (env : HostEnv) (req : WebhookRequest) : RunResult :=
  if !(req.event_type == some "pull_request") then eventIgnoredResult
  else if !(req.action == some "opened" || req.action == some "synchronize") then
    actionIgnoredResult
  else
    match env.setup with
    | .error e => ⟨500, e, true, [], [], [], []⟩
    | .ok files =>
      let eligible := files.filter should_review_file
      let verdicts := eligible.map (processFile env)
      let issues := verdicts.filterMap id
      let comment := if issues.isEmpty then positiveComment else issuesComment issues
      ⟨200, "Success", true, eligible, [], [comment], verdicts⟩

/-- server.py webhook (lines 121-206): the signature gate in front of
everything else. -/
def webhook (env : HostEnv) (req : WebhookRequest) : RunResult :=
  if !verify_signature env.webhook_secret req.body req.signature then invalidSignatureResult
  else webhook_verified env req

end Server

namespace AsyncServer

/-- async_server.py lines 109-112: the asynchronous allow-list, twelve
extensions, with .jsx and .tsx. -/
def reviewable_extensions : List String :=
  [".py", ".js", ".ts", ".java", ".cpp", ".c", ".go", ".rs", ".php", ".rb", ".jsx", ".tsx"]

/-- async_server.py should_review_file: any-of-suffixes test over the
allow-list. -/
def should_review_file (filename : String) : Bool :=
  reviewable_extensions.any (fun ext => endswith filename ext)

/-- async_server.py process_file_review (lines 114-133): fetch and decode
the content (an exception becomes an error section), await the review,
and return a section only when the review text starts with the
ISSUES FOUND: marker — any other text, including the Error strings the
review client returns on transport failure or a missing API key, yields
None. -/
def process_file_review (env : HostEnv) (filename : String) : Option String :=
  match env.get_contents filename with
  | .error e => some ("## ❌ " ++ filename ++ "\nError reviewing file: " ++ e)
  | .ok content =>
    let review := review_with_gemini env.gemini_api_key (env.gemini content filename)
    if startswith review "ISSUES FOUND:" then some ("## 🔍 " ++ filename ++ "\n" ++ review)
    else none

/-- The positive comment posted at async_server.py lines 212-218; its
wording differs from the synchronous one. -/
def positiveComment : String :=
  "## 🤖 AI Code Review\n\n✅ **Code looks good!** No major issues found in the reviewed files.\n\n---\n*Automated review powered by Gemini AI*\n"

/-- async_server.py webhook after the signature gate (lines 147-225): event
and action filters, the try block, the reviewable_files filter with its
empty-selection early return, then one process_file_review task per
reviewable file.  asyncio.gather returns results in task order whatever
the completion order, so the verdict list is the map over the reviewable
files in host order (the tasks never evaluate to exceptions — the whole
task body is inside try/except — so the isinstance Exception branch of
the aggregation loop is unreachable and not modelled).  The review
client's HTTP call is entered exactly for the fetched files when the API
key is truthy. -/
def webhook_verified (env : HostEnv) (req : WebhookRequest) : RunResult :=
  if !(req.event_type == some "pull_request") then eventIgnoredResult
  else if !(req.action == some "opened" || req.action == some "synchronize") then
    actionIgnoredResult
  else
    match env.setup with
    | .error e => ⟨500, e, true, [], [], [], []⟩
    | .ok files =>
      let reviewable_files := files.filter should_review_file
      if reviewable_files.isEmpty then ⟨200, "No reviewable files", true, [], [], [], []⟩
      else
        let verdicts := reviewable_files.map (process_file_review env)
        let issues := verdicts.filterMap id
        let invoked := if pyTruthy env.gemini_api_key then reviewable_files.filter (fetchOk env)
                       else []
        let comment := if issues.isEmpty then positiveComment else issuesComment issues
        ⟨200, "Success", true, reviewable_files, invoked, [comment], verdicts⟩

/-- async_server.py webhook (lines 135-225): the signature gate in front of
everything else. -/
def webhook (env : HostEnv) (req : WebhookRequest) : RunResult :=
  if !verify_signature env.webhook_secret req.body req.signature then invalidSignatureResult
  else webhook_verified env req

end AsyncServer

/-! Concrete scenarios used by witnesses and counterexamples.  The secret is
the empty string (the os.environ.get default when WEBHOOK_SECRET is unset),
the body is empty, and the signature header carries exactly the value the
verifier recomputes. -/

/-- Scenario secret: unset WEBHOOK_SECRET handled as the empty string. -/
def secretW : Option String := some ""

/-- Scenario request body: no bytes. -/
def bodyW : Bytes := []

/-- The matching signature header for the scenario secret and body. -/
def sigW : Option String := some (Server.expected_signature secretW bodyW)

/-- A correctly signed pull_request/opened request. -/
def reqPR : WebhookRequest := ⟨bodyW, sigW, some "pull_request", some "opened"⟩

/-- A correctly signed request with a non-pull-request event type. -/
def reqWrongEvent : WebhookRequest := ⟨bodyW, sigW, some "issues", some "opened"⟩

/-- A correctly signed pull_request request with the closed action. -/
def reqClosed : WebhookRequest := ⟨bodyW, sigW, some "pull_request", some "closed"⟩

/-- A request with no X-Hub-Signature-256 header at all. -/
def reqNoSig : WebhookRequest := ⟨bodyW, none, some "pull_request", some "opened"⟩

/-- A host whose pull request changes only a non-source file. -/
def envNoReviewable : HostEnv :=
  ⟨secretW, some "k", .ok ["README.md"], fun _ => .ok "text", fun _ _ => .reply "CODE LOOKS GOOD: fine"⟩

/-- A host with one reviewable file whose review would say the code looks
good, as in the repository's own webhook test. -/
def envLooksGood : HostEnv :=
  ⟨secretW, some "k", .ok ["test.py"], fun _ => .ok "print(1)",
   fun _ _ => .reply "CODE LOOKS GOOD: Nice simple code!"⟩

/-- A host with one reviewable file and no configured Gemini API key. -/
def envMissingKey : HostEnv :=
  ⟨secretW, none, .ok ["a.py"], fun _ => .ok "print(1)", fun _ _ => .noCandidates⟩

/-- A host with two reviewable files: the first reviews to an issues list,
the second fails its content fetch. -/
def envTwoFiles : HostEnv :=
  ⟨secretW, some "k", .ok ["a.py", "b.py"],
   fun f => if f == "a.py" then .ok "aaa" else .error "404 Not Found",
   fun c _ => if c == "aaa" then .reply "ISSUES FOUND: missing docstring" else .noCandidates⟩

/-- A host whose content fetch always raises. -/
def envFetchFail : HostEnv :=
  ⟨secretW, some "k", .ok ["c.py"], fun _ => .error "boom", fun _ _ => .noCandidates⟩

/-- A bare host for requests that never reach it. -/
def envTrivial : HostEnv :=
  ⟨some "s", none, .ok [], fun _ => .error "unreachable", fun _ _ => .noCandidates⟩

/-! Helper lemmas shared by the claim proofs. -/

/-- The recomputed signature string is never empty: it starts with sha256=. -/
theorem expected_signature_ne_empty (s : Option String) (p : Bytes) :
    Server.expected_signature s p ≠ "" := by
  intro h
  have hlen := congrArg String.length h
  rw [Server.expected_signature, String.length_append] at hlen
  have h7 : ("sha256=" : String).length = 7 := rfl
  have h0 : ("" : String).length = 0 := rfl
  omega

/-- A header holding exactly the recomputed signature verifies. -/
theorem verify_signature_expected (s : Option String) (p : Bytes) :
    Server.verify_signature s p (some (Server.expected_signature s p)) = true := by
  have hne : (Server.expected_signature s p == "") = false := by
    rw [beq_eq_false_iff_ne]
    exact expected_signature_ne_empty s p
  simp [Server.verify_signature, pyTruthy, hne]

/-- The two modules define the same signature verifier. -/
theorem verify_impls_eq (s : Option String) (p : Bytes) (h : Option String) :
    Server.verify_signature s p h = AsyncServer.verify_signature s p h := rfl

/-- A header holding exactly the recomputed signature verifies in the
asynchronous module too. -/
theorem async_verify_signature_expected (s : Option String) (p : Bytes) :
    AsyncServer.verify_signature s p (some (AsyncServer.expected_signature s p)) = true :=
  verify_signature_expected s p

/-- When the signature verifies, the synchronous handler proceeds past the
gate. -/
theorem sync_webhook_of_verified (env : HostEnv) (req : WebhookRequest)
    (h : Server.verify_signature env.webhook_secret req.body req.signature = true) :
    Server.webhook env req = Server.webhook_verified env req := by
  simp [Server.webhook, h]

/-- When the signature verifies, the asynchronous handler proceeds past the
gate. -/
theorem async_webhook_of_verified (env : HostEnv) (req : WebhookRequest)
    (h : AsyncServer.verify_signature env.webhook_secret req.body req.signature = true) :
    AsyncServer.webhook env req = AsyncServer.webhook_verified env req := by
  simp [AsyncServer.webhook, h]

/-- The asynchronous allow-list is the synchronous one plus .jsx and .tsx. -/
theorem async_exts_eq :
    AsyncServer.reviewable_extensions = Server.reviewable_extensions ++ [".jsx", ".tsx"] := rfl

/-- The asynchronous selector accepts exactly the synchronous selections plus
the .jsx and .tsx suffixes. -/
theorem async_srf_eq (f : String) :
    AsyncServer.should_review_file f
      = (Server.should_review_file f || endswith f ".jsx" || endswith f ".tsx") := by
  rw [AsyncServer.should_review_file, async_exts_eq, List.any_append,
      Server.should_review_file]
  simp [Bool.or_assoc]

/-- Every synchronous selection is also an asynchronous selection. -/
theorem sync_srf_imp_async (f : String) (h : Server.should_review_file f = true) :
    AsyncServer.should_review_file f = true := by
  rw [async_srf_eq, h]
  rfl

/-- When no file of the list passes the asynchronous selector, none passes
the synchronous one either. -/
theorem sync_filter_nil_of_async (files : List String)
    (h : files.filter AsyncServer.should_review_file = []) :
    files.filter Server.should_review_file = [] := by
  rw [List.filter_eq_nil_iff] at h ⊢
  intro a ha hs
  exact h a ha (sync_srf_imp_async a hs)

/-- Full characterization of a verified pull_request/opened-or-synchronize
run of the asynchronous handler with a nonempty selection. -/
theorem async_happy_path (env : HostEnv) (req : WebhookRequest) (files : List String)
    (hv : AsyncServer.verify_signature env.webhook_secret req.body req.signature = true)
    (hev : req.event_type = some "pull_request")
    (hac : req.action = some "opened" ∨ req.action = some "synchronize")
    (hs : env.setup = .ok files)
    (hne : files.filter AsyncServer.should_review_file ≠ []) :
    AsyncServer.webhook env req =
      ⟨200, "Success", true, files.filter AsyncServer.should_review_file,
       if pyTruthy env.gemini_api_key
       then (files.filter AsyncServer.should_review_file).filter (fetchOk env) else [],
       [if (((files.filter AsyncServer.should_review_file).map
              (AsyncServer.process_file_review env)).filterMap id).isEmpty
        then AsyncServer.positiveComment
        else issuesComment (((files.filter AsyncServer.should_review_file).map
              (AsyncServer.process_file_review env)).filterMap id)],
       (files.filter AsyncServer.should_review_file).map (AsyncServer.process_file_review env)⟩ := by
  rw [async_webhook_of_verified env req hv]
  have hne' : (files.filter AsyncServer.should_review_file).isEmpty = false := by
    cases hcase : files.filter AsyncServer.should_review_file with
    | nil => exact absurd hcase hne
    | cons a l => rfl
  rcases hac with h | h <;> simp [AsyncServer.webhook_verified, hev, h, hs, hne']

/-- Full characterization of a verified pull_request/opened-or-synchronize
run of the synchronous handler. -/
theorem sync_run_path (env : HostEnv) (req : WebhookRequest) (files : List String)
    (hv : Server.verify_signature env.webhook_secret req.body req.signature = true)
    (hev : req.event_type = some "pull_request")
    (hac : req.action = some "opened" ∨ req.action = some "synchronize")
    (hs : env.setup = .ok files) :
    Server.webhook env req =
      ⟨200, "Success", true, files.filter Server.should_review_file, [],
       [if (((files.filter Server.should_review_file).map
              (Server.processFile env)).filterMap id).isEmpty
        then Server.positiveComment
        else issuesComment (((files.filter Server.should_review_file).map
              (Server.processFile env)).filterMap id)],
       (files.filter Server.should_review_file).map (Server.processFile env)⟩ := by
  rw [sync_webhook_of_verified env req hv]
  rcases hac with h | h <;> simp [Server.webhook_verified, hev, h, hs]

/-- A verified run of the asynchronous handler whose selection is empty
stops with the No reviewable files response. -/
theorem async_no_reviewable (env : HostEnv) (req : WebhookRequest) (files : List String)
    (hv : AsyncServer.verify_signature env.webhook_secret req.body req.signature = true)
    (hev : req.event_type = some "pull_request")
    (hac : req.action = some "opened" ∨ req.action = some "synchronize")
    (hs : env.setup = .ok files)
    (hfilt : files.filter AsyncServer.should_review_file = []) :
    AsyncServer.webhook env req = ⟨200, "No reviewable files", true, [], [], [], []⟩ := by
  rw [async_webhook_of_verified env req hv]
  rcases hac with h | h <;> simp [AsyncServer.webhook_verified, hev, h, hs, hfilt]

/-- A verified run of the synchronous handler whose selection is empty
posts the positive comment and responds Success. -/
theorem sync_empty_selection (env : HostEnv) (req : WebhookRequest) (files : List String)
    (hv : Server.verify_signature env.webhook_secret req.body req.signature = true)
    (hev : req.event_type = some "pull_request")
    (hac : req.action = some "opened" ∨ req.action = some "synchronize")
    (hs : env.setup = .ok files)
    (hfilt : files.filter Server.should_review_file = []) :
    Server.webhook env req
      = ⟨200, "Success", true, [], [], [Server.positiveComment], []⟩ := by
  rw [sync_run_path env req files hv hev hac hs, hfilt]
  rfl

/-! The claims. -/

/-- C1: for every secret, payload body and signature header, both modules'
verify_signature return true exactly when the header is the string sha256=
followed by the lowercase hex HMAC-SHA256 of the body under the UTF-8
secret; an absent or empty header yields false, and an unset secret
environment variable behaves as the empty key rather than passing
silently. -/
theorem C1_verify_signature_iff :
    ∀ (secret : Option String) (payload : Bytes) (header : Option String),
      (Server.verify_signature secret payload header = true
        ↔ header = some (Server.expected_signature secret payload))
      ∧ (AsyncServer.verify_signature secret payload header = true
        ↔ header = some (AsyncServer.expected_signature secret payload))
      ∧ Server.verify_signature secret payload none = false
      ∧ Server.verify_signature secret payload (some "") = false
      ∧ Server.verify_signature none payload header
          = Server.verify_signature (some "") payload header := by
  intro secret payload header
  have key : ∀ h : Option String,
      Server.verify_signature secret payload h = true
        ↔ h = some (Server.expected_signature secret payload) := by
    intro h
    match h with
    | none => simp [Server.verify_signature, pyTruthy]
    | some s =>
      by_cases hs : s = ""
      · subst hs
        simp only [Server.verify_signature, pyTruthy, Option.getD_some]
        constructor
        · intro hcontra
          simp at hcontra
        · intro hcontra
          exact absurd (Option.some_injective _ hcontra).symm
            (expected_signature_ne_empty secret payload)
      · have hne : (s == "") = false := by
          rw [beq_eq_false_iff_ne]; exact hs
        simp only [Server.verify_signature, pyTruthy, hne, Bool.not_false, Bool.not_true,
          Bool.false_eq_true, if_false, Option.getD_some, beq_iff_eq, Option.some_inj]
        exact eq_comm
  exact ⟨key header, key header, rfl, rfl, rfl⟩

/-- C2: the claim's allow-list (twelve extensions, with .jsx and .tsx) is
matched only by async_server.py; server.py's list omits .jsx and .tsx, so
its selector rejects component.tsx — the very filename the repository's
own test asserts is reviewed.  The theorem evaluates both selectors at
the failing input. -/
theorem C2_sync_rejects_tsx :
    Server.should_review_file "component.tsx" = false
    ∧ AsyncServer.should_review_file "component.tsx" = true
    ∧ Server.should_review_file "app.PY" = false
    ∧ AsyncServer.should_review_file "app.PY" = false := by
  decide

/-- C10: eligibility is a pure suffix match, so a filename that is nothing
but an allow-listed extension (a hidden file such as .py) is selected:
every entry of each module's allow-list passes that module's selector. -/
theorem C10_bare_extension_selected :
    (∀ e, e ∈ Server.reviewable_extensions → Server.should_review_file e = true)
    ∧ (∀ e, e ∈ AsyncServer.reviewable_extensions → AsyncServer.should_review_file e = true) := by
  constructor <;> decide

/-- Witness for C10: the hidden files .py and .tsx are selected. -/
theorem C10_witness :
    Server.should_review_file ".py" = true ∧ AsyncServer.should_review_file ".tsx" = true :=
  ⟨C10_bare_extension_selected.1 ".py" (by decide),
   C10_bare_extension_selected.2 ".tsx" (by decide)⟩

/-- C4: whenever signature verification fails, both handlers answer 401
Invalid signature and nothing else is observable: the host is never
contacted, no content is fetched, no review is invoked and no comment is
posted. -/
theorem C4_invalid_signature_short_circuits :
    ∀ (env : HostEnv) (req : WebhookRequest),
      Server.verify_signature env.webhook_secret req.body req.signature = false →
      Server.webhook env req = invalidSignatureResult
      ∧ AsyncServer.webhook env req = invalidSignatureResult := by
  intro env req h
  have h2 : AsyncServer.verify_signature env.webhook_secret req.body req.signature = false := by
    rw [← verify_impls_eq]; exact h
  constructor
  · simp [Server.webhook, h]
  · simp [AsyncServer.webhook, h2]

/-- Witness for C4: a request without the signature header is rejected by
both handlers with no processing. -/
theorem C4_witness :
    Server.webhook envTrivial reqNoSig = invalidSignatureResult
    ∧ AsyncServer.webhook envTrivial reqNoSig = invalidSignatureResult :=
  C4_invalid_signature_short_circuits envTrivial reqNoSig (by decide)

/-- C6: on a verified request, a non-pull_request event type is answered
200 Event ignored, and a pull_request event whose action is neither
opened nor synchronize is answered 200 Action ignored; in both cases
neither handler contacts the source host or the review client, and no
comment is posted. -/
theorem C6_event_and_action_filters :
    ∀ (env : HostEnv) (req : WebhookRequest),
      Server.verify_signature env.webhook_secret req.body req.signature = true →
      (req.event_type ≠ some "pull_request" →
        Server.webhook env req = eventIgnoredResult
        ∧ AsyncServer.webhook env req = eventIgnoredResult)
      ∧ (req.event_type = some "pull_request" →
         req.action ≠ some "opened" → req.action ≠ some "synchronize" →
         Server.webhook env req = actionIgnoredResult
         ∧ AsyncServer.webhook env req = actionIgnoredResult) := by
  intro env req h
  have h2 : AsyncServer.verify_signature env.webhook_secret req.body req.signature = true := by
    rw [← verify_impls_eq]; exact h
  rw [sync_webhook_of_verified env req h, async_webhook_of_verified env req h2]
  constructor
  · intro hev
    have hev2 : (req.event_type == some "pull_request") = false := by
      rw [beq_eq_false_iff_ne]; exact hev
    constructor
    · simp [Server.webhook_verified, hev2]
    · simp [AsyncServer.webhook_verified, hev2]
  · intro hev hao has
    have hao2 : (req.action == some "opened") = false := by
      rw [beq_eq_false_iff_ne]; exact hao
    have has2 : (req.action == some "synchronize") = false := by
      rw [beq_eq_false_iff_ne]; exact has
    constructor
    · simp [Server.webhook_verified, hev, hao2, has2]
    · simp [AsyncServer.webhook_verified, hev, hao2, has2]

/-- Witness for C6: a signed issues event is Event ignored and a signed
closed pull request is Action ignored, with empty traces, in both
handlers. -/
theorem C6_witness :
    (Server.webhook envNoReviewable reqWrongEvent = eventIgnoredResult
      ∧ AsyncServer.webhook envNoReviewable reqWrongEvent = eventIgnoredResult)
    ∧ (Server.webhook envNoReviewable reqClosed = actionIgnoredResult
      ∧ AsyncServer.webhook envNoReviewable reqClosed = actionIgnoredResult) :=
  ⟨(C6_event_and_action_filters envNoReviewable reqWrongEvent
      (verify_signature_expected secretW bodyW)).1 (by decide),
   (C6_event_and_action_filters envNoReviewable reqClosed
      (verify_signature_expected secretW bodyW)).2 rfl (by decide) (by decide)⟩

/-- C5: on every dispatching run, both handlers produce exactly one verdict
per eligible changed file, in the order the host reported the files, and
the single posted comment concatenates exactly the non-empty verdicts in
that order (asyncio.gather returns results in task order, so completion
order cannot influence the list). -/
theorem C5_one_verdict_per_file_in_order :
    ∀ (env : HostEnv) (req : WebhookRequest) (files : List String),
      Server.verify_signature env.webhook_secret req.body req.signature = true →
      req.event_type = some "pull_request" →
      (req.action = some "opened" ∨ req.action = some "synchronize") →
      env.setup = .ok files →
      (files.filter AsyncServer.should_review_file ≠ [] →
        (AsyncServer.webhook env req).verdicts
          = (files.filter AsyncServer.should_review_file).map (AsyncServer.process_file_review env)
        ∧ (AsyncServer.webhook env req).verdicts.length
          = (files.filter AsyncServer.should_review_file).length
        ∧ (AsyncServer.webhook env req).comments
          = [if (((files.filter AsyncServer.should_review_file).map
                  (AsyncServer.process_file_review env)).filterMap id).isEmpty
             then AsyncServer.positiveComment
             else issuesComment (((files.filter AsyncServer.should_review_file).map
                  (AsyncServer.process_file_review env)).filterMap id)])
      ∧ ((Server.webhook env req).verdicts
          = (files.filter Server.should_review_file).map (Server.processFile env)
        ∧ (Server.webhook env req).verdicts.length
          = (files.filter Server.should_review_file).length
        ∧ (Server.webhook env req).comments
          = [if (((files.filter Server.should_review_file).map
                  (Server.processFile env)).filterMap id).isEmpty
             then Server.positiveComment
             else issuesComment (((files.filter Server.should_review_file).map
                  (Server.processFile env)).filterMap id)]) := by
  intro env req files hv hev hac hs
  have hv2 : AsyncServer.verify_signature env.webhook_secret req.body req.signature = true := by
    rw [← verify_impls_eq]; exact hv
  constructor
  · intro hne
    rw [async_happy_path env req files hv2 hev hac hs hne]
    exact ⟨rfl, by simp, rfl⟩
  · rw [sync_run_path env req files hv hev hac hs]
    exact ⟨rfl, by simp, rfl⟩

set_option maxRecDepth 8192 in
/-- Witness for C5: two reviewable files, the first reviewing to an issues
list and the second failing its content fetch, give two verdicts in host
order and one comment with the two sections in that order. -/
theorem C5_witness :
    (AsyncServer.webhook envTwoFiles reqPR).verdicts
      = (["a.py", "b.py"].filter AsyncServer.should_review_file).map
          (AsyncServer.process_file_review envTwoFiles)
    ∧ (AsyncServer.webhook envTwoFiles reqPR).comments
      = [issuesComment ["## 🔍 a.py\nISSUES FOUND: missing docstring",
                        "## ❌ b.py\nError reviewing file: 404 Not Found"]] := by
  have h := (C5_one_verdict_per_file_in_order envTwoFiles reqPR ["a.py", "b.py"]
    (verify_signature_expected secretW bodyW) rfl (Or.inl rfl) rfl).1 (by decide)
  refine ⟨h.1, ?_⟩
  rw [h.2.2]
  decide

/-- C7 counterexample: a verified opened pull request whose only changed
file is README.md.  The claim says the handler stops with a No reviewable
files response and posts nothing, but the synchronous handler answers
Success and posts the positive comment; only the asynchronous handler
behaves as claimed. -/
theorem C7_counterexample :
    (Server.webhook envNoReviewable reqPR).message = "Success"
    ∧ (Server.webhook envNoReviewable reqPR).comments = [Server.positiveComment]
    ∧ (AsyncServer.webhook envNoReviewable reqPR).message = "No reviewable files"
    ∧ (AsyncServer.webhook envNoReviewable reqPR).comments = [] := by
  rw [sync_webhook_of_verified envNoReviewable reqPR (verify_signature_expected secretW bodyW),
      async_webhook_of_verified envNoReviewable reqPR (verify_signature_expected secretW bodyW)]
  decide

/-- C7 amended: on a verified accepted pull-request event whose selection is
empty, the asynchronous handler answers 200 No reviewable files with no
fetch, no review call and no comment, while the synchronous handler
answers 200 Success and posts the fixed positive comment (it has no
empty-selection return). -/
theorem C7_amended_empty_selection :
    ∀ (env : HostEnv) (req : WebhookRequest) (files : List String),
      Server.verify_signature env.webhook_secret req.body req.signature = true →
      req.event_type = some "pull_request" →
      (req.action = some "opened" ∨ req.action = some "synchronize") →
      env.setup = .ok files →
      files.filter AsyncServer.should_review_file = [] →
      AsyncServer.webhook env req = ⟨200, "No reviewable files", true, [], [], [], []⟩
      ∧ Server.webhook env req = ⟨200, "Success", true, [], [], [Server.positiveComment], []⟩ := by
  intro env req files hv hev hac hs hfilt
  have hv2 : AsyncServer.verify_signature env.webhook_secret req.body req.signature = true := by
    rw [← verify_impls_eq]; exact hv
  exact ⟨async_no_reviewable env req files hv2 hev hac hs hfilt,
         sync_empty_selection env req files hv hev hac hs (sync_filter_nil_of_async files hfilt)⟩

/-- Witness for C7 (amended): the README.md-only pull request drives both
handlers to the amended outcomes. -/
theorem C7_witness :
    AsyncServer.webhook envNoReviewable reqPR = ⟨200, "No reviewable files", true, [], [], [], []⟩
    ∧ Server.webhook envNoReviewable reqPR
        = ⟨200, "Success", true, [], [], [Server.positiveComment], []⟩ :=
  C7_amended_empty_selection envNoReviewable reqPR ["README.md"]
    (verify_signature_expected secretW bodyW) rfl (Or.inl rfl) rfl (by decide)

set_option maxRecDepth 8192 in
/-- C8: with one reviewable file whose review replies CODE LOOKS GOOD, the
asynchronous handler posts exactly one comment, the fixed positive one,
and answers 200 Success — but the synchronous handler, which never awaits
its async review_with_gemini, posts an error section for the file instead
of the positive message (its one comment and 200 Success remain).  The
theorem evaluates both handlers at the failing input. -/
theorem C8_sync_never_awaits_review :
    (AsyncServer.webhook envLooksGood reqPR).status = 200
    ∧ (AsyncServer.webhook envLooksGood reqPR).message = "Success"
    ∧ (AsyncServer.webhook envLooksGood reqPR).comments = [AsyncServer.positiveComment]
    ∧ (Server.webhook envLooksGood reqPR).status = 200
    ∧ (Server.webhook envLooksGood reqPR).message = "Success"
    ∧ (Server.webhook envLooksGood reqPR).comments
        = [issuesComment ["## ❌ test.py\nError reviewing file: " ++ Server.coroutineAttrError]] := by
  rw [sync_webhook_of_verified envLooksGood reqPR (verify_signature_expected secretW bodyW),
      async_webhook_of_verified envLooksGood reqPR (verify_signature_expected secretW bodyW)]
  decide

/-- C9 counterexample: the selectors of the two modules disagree on
app.jsx (and any .jsx or .tsx file), so the implementations are not
behaviorally equal. -/
theorem C9_counterexample :
    Server.should_review_file "app.jsx" = false
    ∧ AsyncServer.should_review_file "app.jsx" = true := by
  decide

/-- C9 amended: the two verify_signature functions agree on every input;
the asynchronous selector equals the synchronous one extended by the .jsx
and .tsx suffixes; and the webhook handlers are not equivalent: on a
verified accepted event with an empty selection the synchronous handler
answers Success and posts the positive comment while the asynchronous one
answers No reviewable files and posts nothing. -/
theorem C9_amended_relation :
    (∀ (s : Option String) (p : Bytes) (h : Option String),
       Server.verify_signature s p h = AsyncServer.verify_signature s p h)
    ∧ (∀ f : String, AsyncServer.should_review_file f
        = (Server.should_review_file f || endswith f ".jsx" || endswith f ".tsx"))
    ∧ (∀ (env : HostEnv) (req : WebhookRequest) (files : List String),
        Server.verify_signature env.webhook_secret req.body req.signature = true →
        req.event_type = some "pull_request" →
        (req.action = some "opened" ∨ req.action = some "synchronize") →
        env.setup = .ok files →
        files.filter AsyncServer.should_review_file = [] →
        (Server.webhook env req).message = "Success"
        ∧ (Server.webhook env req).comments = [Server.positiveComment]
        ∧ (AsyncServer.webhook env req).message = "No reviewable files"
        ∧ (AsyncServer.webhook env req).comments = []) := by
  refine ⟨verify_impls_eq, async_srf_eq, ?_⟩
  intro env req files hv hev hac hs hfilt
  have hv2 : AsyncServer.verify_signature env.webhook_secret req.body req.signature = true := by
    rw [← verify_impls_eq]; exact hv
  rw [sync_empty_selection env req files hv hev hac hs (sync_filter_nil_of_async files hfilt),
      async_no_reviewable env req files hv2 hev hac hs hfilt]
  exact ⟨rfl, rfl, rfl, rfl⟩

/-- Witness for C9 (amended): the selector relation at app.jsx and the
handler divergence on the README.md-only pull request. -/
theorem C9_witness :
    AsyncServer.should_review_file "app.jsx"
      = (Server.should_review_file "app.jsx"
          || endswith "app.jsx" ".jsx" || endswith "app.jsx" ".tsx")
    ∧ ((Server.webhook envNoReviewable reqPR).message = "Success"
       ∧ (Server.webhook envNoReviewable reqPR).comments = [Server.positiveComment]
       ∧ (AsyncServer.webhook envNoReviewable reqPR).message = "No reviewable files"
       ∧ (AsyncServer.webhook envNoReviewable reqPR).comments = []) :=
  ⟨C9_amended_relation.2.1 "app.jsx",
   C9_amended_relation.2.2 envNoReviewable reqPR ["README.md"]
     (verify_signature_expected secretW bodyW) rfl (Or.inl rfl) rfl (by decide)⟩

/-- C3 counterexample: one reviewable file, successful content fetch, and a
review call that fails for want of an API key.  The claim says the
failure is captured as an Error verdict and surfaced in the comment, but
the review client's Error string does not start with ISSUES FOUND:, the
verdict is empty, and the posted comment is the positive one. -/
theorem C3_counterexample :
    envMissingKey.gemini_api_key = none
    ∧ envMissingKey.get_contents "a.py" = .ok "print(1)"
    ∧ review_with_gemini envMissingKey.gemini_api_key (envMissingKey.gemini "print(1)" "a.py")
        = "Error: Gemini API key not configured"
    ∧ AsyncServer.process_file_review envMissingKey "a.py" = none
    ∧ (AsyncServer.webhook envMissingKey reqPR).comments = [AsyncServer.positiveComment]
    ∧ (AsyncServer.webhook envMissingKey reqPR).message = "Success" := by
  refine ⟨rfl, rfl, rfl, rfl, ?_, ?_⟩ <;>
    rw [async_webhook_of_verified envMissingKey reqPR (verify_signature_expected secretW bodyW)] <;>
    decide

/-- C3 amended: an exception while fetching a file's content is captured as
an error section for that file; the review client maps a missing API key
or a transport failure to an Error string instead of an exception, but
such strings do not start with ISSUES FOUND: as required for surfacing,
so they produce no verdict section; and no per-file outcome aborts the
batch — the run still answers 200 Success with one verdict slot per
eligible file. -/
theorem C3_amended_per_file_failures :
    ∀ (env : HostEnv) (f content e : String) (outcome : GeminiOutcome),
      (env.get_contents f = .error e →
        AsyncServer.process_file_review env f
          = some ("## ❌ " ++ f ++ "\nError reviewing file: " ++ e))
      ∧ review_with_gemini none outcome = "Error: Gemini API key not configured"
      ∧ (∀ k : String, k ≠ "" →
          review_with_gemini (some k) (.transportError e) = "Error calling Gemini API: " ++ e)
      ∧ (env.get_contents f = .ok content →
         startswith (review_with_gemini env.gemini_api_key (env.gemini content f))
             "ISSUES FOUND:" = false →
         AsyncServer.process_file_review env f = none)
      ∧ (∀ (req : WebhookRequest) (files : List String),
          AsyncServer.verify_signature env.webhook_secret req.body req.signature = true →
          req.event_type = some "pull_request" →
          (req.action = some "opened" ∨ req.action = some "synchronize") →
          env.setup = .ok files →
          files.filter AsyncServer.should_review_file ≠ [] →
          (AsyncServer.webhook env req).status = 200
          ∧ (AsyncServer.webhook env req).message = "Success"
          ∧ (AsyncServer.webhook env req).verdicts.length
              = (files.filter AsyncServer.should_review_file).length) := by
  intro env f content e outcome
  refine ⟨?_, rfl, ?_, ?_, ?_⟩
  · intro h
    simp [AsyncServer.process_file_review, h]
  · intro k hk
    have hk2 : (k == "") = false := by rw [beq_eq_false_iff_ne]; exact hk
    simp [review_with_gemini, pyTruthy, hk2]
  · intro h hrev
    simp [AsyncServer.process_file_review, h, hrev]
  · intro req files hv hev hac hs hne
    rw [async_happy_path env req files hv hev hac hs hne]
    exact ⟨rfl, rfl, by simp⟩

/-- Witness for C3 (amended): a fetch failure becomes an error section, the
keyless and transport failures map to Error strings, a non-surfaced Error
string gives no verdict, and the two-file run still answers 200 Success
with two verdict slots. -/
theorem C3_witness :
    AsyncServer.process_file_review envFetchFail "c.py"
      = some ("## ❌ " ++ "c.py" ++ "\nError reviewing file: " ++ "boom")
    ∧ review_with_gemini none .noCandidates = "Error: Gemini API key not configured"
    ∧ review_with_gemini (some "k") (.transportError "boom")
        = "Error calling Gemini API: " ++ "boom"
    ∧ AsyncServer.process_file_review envMissingKey "a.py" = none
    ∧ ((AsyncServer.webhook envTwoFiles reqPR).status = 200
       ∧ (AsyncServer.webhook envTwoFiles reqPR).message = "Success"
       ∧ (AsyncServer.webhook envTwoFiles reqPR).verdicts.length
           = (["a.py", "b.py"].filter AsyncServer.should_review_file).length) :=
  ⟨(C3_amended_per_file_failures envFetchFail "c.py" "x" "boom" .noCandidates).1 rfl,
   (C3_amended_per_file_failures envFetchFail "c.py" "x" "boom" .noCandidates).2.1,
   (C3_amended_per_file_failures envFetchFail "c.py" "x" "boom" .noCandidates).2.2.1 "k"
     (by decide),
   (C3_amended_per_file_failures envMissingKey "a.py" "print(1)" "e" .noCandidates).2.2.2.1
     rfl (by decide),
   (C3_amended_per_file_failures envTwoFiles "x" "x" "e" .noCandidates).2.2.2.2 reqPR
     ["a.py", "b.py"] (verify_signature_expected secretW bodyW) rfl (Or.inl rfl) rfl
     (by decide)⟩

end AIReviewer
